import Mathlib

/-!
Verification of the dental-lab-forum backend handlers.

The handlers operate on a relational store; we embed each table as a list of
rows and each handler as a pure function threading the state. SQL statements
become list operations: SELECT with WHERE is List.filter, DELETE is filtering
with the negated predicate, UPDATE is List.map, INSERT is list append, ORDER BY
is an insertion sort by the corresponding key, LIMIT and OFFSET are take and
drop. Thrown errors become an Except value paired with the (unchanged) state.
JavaScript truthiness tests on optional inputs (query.tag, query.creatorId,
userId) treat 0 and the empty string as absent; the embedding mirrors this.
-/

namespace DentalLab

/-- Enumerated vote directions, from the voteTypeEnum in db/schema.ts. -/
inductive VoteType
  | up
  | down
deriving DecidableEq

inductive ProfessionalType
  | clinician
  | labTechnician
  | specialist
  | student
  | educator
deriving DecidableEq

inductive CaseType
  | crown
  | bridge
  | implant
  | orthodontic
  | surgicalGuide
  | denture
  | other
deriving DecidableEq

inductive CasePriority
  | low
  | medium
  | high
  | urgent
deriving DecidableEq

inductive CaseStatus
  | draft
  | active
  | inProgress
  | completed
  | cancelled
deriving DecidableEq

inductive CollaboratorRole
  | viewer
  | editor
  | owner
deriving DecidableEq

inductive PostSortBy
  | newest
  | oldest
  | mostVoted
  | mostCommented
deriving DecidableEq

inductive CaseSortBy
  | newest
  | oldest
  | byPriority
  | byStatus
deriving DecidableEq

/-- Row of the users table (timestamps embedded as naturals). -/
structure UserRow where
  id : Nat
  name : String
  email : String
  password : String
  avatarUrl : Option String
  professionalType : ProfessionalType
  isVerified : Bool
  createdAt : Nat
  updatedAt : Nat
deriving DecidableEq

/-- Row of the forum_posts table; the four counters are signed because the
handlers decrement them with plain SQL arithmetic. -/
structure PostRow where
  id : Nat
  title : String
  content : String
  excerpt : Option String
  authorId : Nat
  categoryId : Nat
  createdAt : Nat
  updatedAt : Nat
  upvotes : Int
  downvotes : Int
  viewCount : Int
  commentCount : Int
deriving DecidableEq

structure CategoryRow where
  id : Nat
  name : String
  description : Option String
deriving DecidableEq

structure PostTagRow where
  postId : Nat
  tag : String
deriving DecidableEq

structure CommentRow where
  id : Nat
  postId : Nat
  authorId : Nat
  content : String
  createdAt : Nat
  updatedAt : Nat
deriving DecidableEq

structure VoteRow where
  userId : Nat
  postId : Nat
  voteType : VoteType
deriving DecidableEq

structure BookmarkRow where
  userId : Nat
  postId : Nat
deriving DecidableEq

/-- State of the forum-related tables. -/
structure ForumState where
  categories : List CategoryRow
  posts : List PostRow
  postTags : List PostTagRow
  comments : List CommentRow
  votes : List VoteRow
  bookmarks : List BookmarkRow
  nextPostId : Nat
  nextCommentId : Nat
deriving DecidableEq

structure CaseRow where
  id : Nat
  title : String
  description : String
  caseType : CaseType
  priority : CasePriority
  patientAge : Option Nat
  isPublic : Bool
  creatorId : Nat
  createdAt : Nat
  updatedAt : Nat
  status : CaseStatus
deriving DecidableEq

structure CaseTagRow where
  caseId : Nat
  tag : String
deriving DecidableEq

structure CaseCollaboratorRow where
  caseId : Nat
  userId : Nat
  role : CollaboratorRole
deriving DecidableEq

/-- State of the case-related tables. -/
structure CaseState where
  cases : List CaseRow
  caseTags : List CaseTagRow
  caseCollaborators : List CaseCollaboratorRow
deriving DecidableEq

structure UserState where
  users : List UserRow
  nextUserId : Nat
deriving DecidableEq

/-! Generic query plumbing shared by the handlers. -/

/-- Semantics of the JavaScript idiom value or default on an optional number:
undefined and 0 both fall back to the default. -/
def orDefaultNat (v : Option Nat) (d : Nat) : Nat :=
  match v with
  | none => d
  | some n => if n = 0 then d else n

/-- Semantics of a truthiness test on an optional string: undefined and the
empty string count as absent. -/
def tagActive : Option String → Option String
  | none => none
  | some t => if t = "" then none else some t

/-- Semantics of a truthiness test on an optional numeric id: undefined and 0
count as absent. -/
def idActive : Option Nat → Option Nat
  | none => none
  | some n => if n = 0 then none else some n

/-- LIMIT and OFFSET applied to an ordered row list. -/
def paginateRows (offset limit : Nat) (l : List α) : List α :=
  (l.drop offset).take limit

/-- Insertion step for the ORDER BY embedding. -/
def insertLe (le : α → α → Bool) (x : α) : List α → List α
  | [] => [x]
  | y :: ys => if le x y then x :: y :: ys else y :: insertLe le x ys

/-- Insertion sort used to embed ORDER BY deterministically. -/
def sortLe (le : α → α → Bool) : List α → List α
  | [] => []
  | x :: xs => insertLe le x (sortLe le xs)

theorem insertLe_perm (le : α → α → Bool) (x : α) (l : List α) :
    (insertLe le x l).Perm (x :: l) := by
  induction l with
  | nil => simp [insertLe]
  | cons y ys ih =>
    by_cases h : le x y = true
    · simp [insertLe, h]
    · simp only [insertLe, h, if_false]
      exact ((ih.cons y).trans (List.Perm.swap x y ys))

theorem sortLe_perm (le : α → α → Bool) (l : List α) :
    (sortLe le l).Perm l := by
  induction l with
  | nil => simp [sortLe]
  | cons x xs ih =>
    exact (insertLe_perm le x (sortLe le xs)).trans (ih.cons x)

/-! Excerpt generation, from generateExcerpt in handlers/forum.ts. -/

/-- Whitespace set removed by the JavaScript String.prototype.trim method:
tab, line feed, vertical tab, form feed, carriage return, space, the Unicode
space separators, the line and paragraph separators, and the byte order mark. -/
def isJsWhitespace (c : Char) : Bool :=
  let n := c.toNat
  n = 9 || n = 10 || n = 11 || n = 12 || n = 13 || n = 32 || n = 160 ||
    n = 0x1680 || decide (0x2000 ≤ n ∧ n ≤ 0x200A) || n = 0x2028 ||
    n = 0x2029 || n = 0x202F || n = 0x205F || n = 0x3000 || n = 0xFEFF

/-- Embedding of the JavaScript trim: drop whitespace from both ends. -/
def jsTrim (l : List Char) : List Char :=
  ((l.dropWhile isJsWhitespace).reverse.dropWhile isJsWhitespace).reverse

/-- Embedding of the JavaScript trim on strings. -/
def jsTrimString (s : String) : String :=
  String.mk (jsTrim s.data)

/-- Scanning helper for the tag-stripping regex: drop characters up to and
including the next closing angle bracket, or report that none exists. -/
def dropThroughGt : List Char → Option (List Char)
  | [] => none
  | c :: rest => if c = '>' then some rest else dropThroughGt rest

theorem dropThroughGt_length :
    ∀ {l restAfter : List Char}, dropThroughGt l = some restAfter →
      restAfter.length < l.length := by
  intro l
  induction l with
  | nil => intro restAfter h; simp [dropThroughGt] at h
  | cons c rest ih =>
    intro restAfter h
    by_cases hc : c = '>'
    · simp [dropThroughGt, hc] at h
      simp [← h]
    · simp only [dropThroughGt, hc, if_false] at h
      exact Nat.lt_trans (ih h) (Nat.lt_succ_self _)

/-- Embedding of the global regex replacement removing every maximal run
from an opening angle bracket through the next closing one; an opening
bracket with no later closing bracket is left in place, matching the regex. -/
def stripTags : List Char → List Char
  | [] => []
  | c :: rest =>
    if c = '<' then
      match h : dropThroughGt rest with
      | some restAfter => stripTags restAfter
      | none => c :: stripTags rest
    else c :: stripTags rest
termination_by l => l.length
decreasing_by
  · exact Nat.lt_trans (dropThroughGt_length h) (Nat.lt_succ_self _)
  · exact Nat.lt_succ_self _
  · exact Nat.lt_succ_self _

/-- Embedding of generateExcerpt: strip markup, trim, and truncate to 150
characters with a trailing ellipsis when the plain text is longer than that. -/
def generateExcerpt (content : String) : String :=
  let plainText := jsTrim (stripTags content.data)
  if plainText.length ≤ 150 then String.mk plainText
  else String.mk (jsTrim (plainText.take 150)) ++ "..."

/-! Forum handlers, from handlers/forum.ts. -/

structure CreateForumPostInput where
  title : String
  content : String
  excerpt : Option String
  categoryId : Nat
  tags : Option (List String)
deriving DecidableEq

structure VotePostInput where
  postId : Nat
  voteType : VoteType
deriving DecidableEq

structure BookmarkPostInput where
  postId : Nat
deriving DecidableEq

structure ForumPostsQueryInput where
  page : Option Nat
  limit : Option Nat
  categoryId : Option Nat
  tag : Option String
  authorId : Option Nat
  sortBy : Option PostSortBy
deriving DecidableEq

/-- Embedding of createForumPost: reject a missing category, derive the
excerpt when the input one is absent or empty, insert the post row with a
fresh serial id and zeroed counters, then insert the trimmed tag rows. -/
def createForumPost (s : ForumState) (input : CreateForumPostInput)
    (authorId : Nat) (now : Nat) : ForumState × Except String PostRow :=
  if (s.categories.filter (fun c => c.id == input.categoryId)).length = 0 then
    (s, .error "Forum category does not exist")
  else
    let excerpt :=
      match input.excerpt with
      | some e => if e = "" then generateExcerpt input.content else e
      | none => generateExcerpt input.content
    let post : PostRow :=
      { id := s.nextPostId, title := input.title, content := input.content,
        excerpt := some excerpt, authorId := authorId,
        categoryId := input.categoryId, createdAt := now, updatedAt := now,
        upvotes := 0, downvotes := 0, viewCount := 0, commentCount := 0 }
    let tagRows :=
      match input.tags with
      | some tags =>
        if tags.length > 0 then
          tags.map (fun t => { postId := post.id, tag := jsTrimString t : PostTagRow })
        else []
      | none => []
    ({ s with posts := s.posts ++ [post],
              postTags := s.postTags ++ tagRows,
              nextPostId := s.nextPostId + 1 }, .ok post)

/-- Embedding of deleteForumPost: return false when the post is absent, throw
when the caller is not the author, otherwise delete the tag, comment, vote and
bookmark rows of the post and then the post itself. -/
def deleteForumPost (s : ForumState) (postId userId : Nat) :
    ForumState × Except String Bool :=
  match s.posts.filter (fun p => p.id == postId) with
  | [] => (s, .ok false)
  | existingPost :: _ =>
    if existingPost.authorId ≠ userId then
      (s, .error "Only the author can delete this post")
    else
      ({ s with
          postTags := s.postTags.filter (fun r => !(r.postId == postId)),
          comments := s.comments.filter (fun c => !(c.postId == postId)),
          votes := s.votes.filter (fun v => !(v.postId == postId)),
          bookmarks := s.bookmarks.filter (fun b => !(b.postId == postId)),
          posts := s.posts.filter (fun p => !(p.id == postId)) }, .ok true)

/-- Embedding of voteOnPost: throw on a missing post; with no existing vote,
insert the vote row and increment the matching counter; with an existing vote
of the same direction, delete the row and decrement that counter; with an
existing vote of the other direction, flip the stored direction and adjust
both counters in one update. -/
def voteOnPost (s : ForumState) (input : VotePostInput) (userId : Nat) :
    ForumState × Except String Bool :=
  if (s.posts.filter (fun p => p.id == input.postId)).length = 0 then
    (s, .error "Forum post does not exist")
  else
    match s.votes.filter (fun v => v.userId == userId && v.postId == input.postId) with
    | currentVote :: _ =>
      if currentVote.voteType = input.voteType then
        ({ s with
            votes := s.votes.filter
              (fun v => !(v.userId == userId && v.postId == input.postId)),
            posts :=
              if input.voteType = VoteType.up then
                s.posts.map (fun p => if p.id == input.postId then
                  { p with upvotes := p.upvotes - 1 } else p)
              else
                s.posts.map (fun p => if p.id == input.postId then
                  { p with downvotes := p.downvotes - 1 } else p) }, .ok true)
      else
        ({ s with
            votes := s.votes.map
              (fun v => if v.userId == userId && v.postId == input.postId then
                { v with voteType := input.voteType } else v),
            posts :=
              if input.voteType = VoteType.up then
                s.posts.map (fun p => if p.id == input.postId then
                  { p with upvotes := p.upvotes + 1, downvotes := p.downvotes - 1 } else p)
              else
                s.posts.map (fun p => if p.id == input.postId then
                  { p with upvotes := p.upvotes - 1, downvotes := p.downvotes + 1 } else p) },
         .ok true)
    | [] =>
      ({ s with
          votes := s.votes ++
            [{ userId := userId, postId := input.postId, voteType := input.voteType }],
          posts :=
            if input.voteType = VoteType.up then
              s.posts.map (fun p => if p.id == input.postId then
                { p with upvotes := p.upvotes + 1 } else p)
            else
              s.posts.map (fun p => if p.id == input.postId then
                { p with downvotes := p.downvotes + 1 } else p) }, .ok true)

/-- Embedding of toggleBookmark: throw on a missing post, delete the bookmark
row when present, insert it when absent. -/
def toggleBookmark (s : ForumState) (input : BookmarkPostInput) (userId : Nat) :
    ForumState × Except String Bool :=
  if (s.posts.filter (fun p => p.id == input.postId)).length = 0 then
    (s, .error "Forum post does not exist")
  else
    if (s.bookmarks.filter
          (fun b => b.userId == userId && b.postId == input.postId)).length > 0 then
      let remaining :=
        s.bookmarks.filter (fun b => !(b.userId == userId && b.postId == input.postId))
      ({ s with bookmarks := remaining }, .ok true)
    else
      let added := s.bookmarks ++ [{ userId := userId, postId := input.postId : BookmarkRow }]
      ({ s with bookmarks := added }, .ok true)

/-- ORDER BY comparison used by getForumPosts: newest is the default and sorts
by creation time descending; mostVoted sorts by upvotes minus downvotes
descending; mostCommented sorts by comment count descending. -/
def postSortLe (sortBy : Option PostSortBy) (a b : PostRow) : Bool :=
  match sortBy with
  | some PostSortBy.oldest => decide (a.createdAt ≤ b.createdAt)
  | some PostSortBy.mostVoted => decide (b.upvotes - b.downvotes ≤ a.upvotes - a.downvotes)
  | some PostSortBy.mostCommented => decide (b.commentCount ≤ a.commentCount)
  | _ => decide (b.createdAt ≤ a.createdAt)

/-- Optional equality filters on category and author used by getForumPosts;
these are pushed whenever the query field is present (undefined test). -/
def postFieldFilters (q : ForumPostsQueryInput) (p : PostRow) : Bool :=
  (match q.categoryId with
   | some c => p.categoryId == c
   | none => true) &&
  (match q.authorId with
   | some a => p.authorId == a
   | none => true)

/-- Embedding of getForumPosts: under a (truthy) tag filter, first select the
post ids carrying the tag, short-circuit to the empty list when there are
none, and otherwise add membership in that id list to the WHERE conditions;
then filter, order, and paginate. -/
def getForumPosts (s : ForumState) (q : ForumPostsQueryInput) : List PostRow :=
  let page := orDefaultNat q.page 1
  let limit := orDefaultNat q.limit 10
  let offset := (page - 1) * limit
  match tagActive q.tag with
  | some t =>
    let taggedPosts := s.postTags.filter (fun r => r.tag == t)
    if taggedPosts.length = 0 then []
    else
      let postIds := taggedPosts.map (fun r => r.postId)
      paginateRows offset limit (sortLe (postSortLe q.sortBy)
        (s.posts.filter (fun p => postIds.contains p.id && postFieldFilters q p)))
  | none =>
    paginateRows offset limit (sortLe (postSortLe q.sortBy)
      (s.posts.filter (fun p => postFieldFilters q p)))

/-! Auth handlers, from the auth handler module. -/

structure CreateUserInput where
  name : String
  email : String
  password : String
  avatarUrl : Option String
  professionalType : ProfessionalType
deriving DecidableEq

structure LoginInput where
  email : String
  password : String
deriving DecidableEq

/-- Embedding of hashPassword: the source appends the literal salt and feeds
the result to an external SHA-256 digest; the digest itself lives outside the
repository, so it is abstracted as the function argument hp. -/
def hashPassword (hp : String → String) (password : String) : String :=
  hp (password ++ "salt")

/-- Embedding of verifyPassword: re-hash the candidate and compare. -/
def verifyPassword (hp : String → String) (password hash : String) : Bool :=
  hashPassword hp password == hash

/-- Embedding of registerUser: throw when the email is already present
(before any insert), otherwise insert the user with a hashed password, a
falsy-normalized avatar URL, and isVerified set to false. -/
def registerUser (hp : String → String) (s : UserState) (input : CreateUserInput)
    (now : Nat) : UserState × Except String UserRow :=
  if (s.users.filter (fun u => u.email == input.email)).length > 0 then
    (s, .error "Email already exists")
  else
    let hashed := hashPassword hp input.password
    let avatar :=
      match input.avatarUrl with
      | some a => if a = "" then none else some a
      | none => none
    let user : UserRow :=
      { id := s.nextUserId, name := input.name, email := input.email,
        password := hashed, avatarUrl := avatar,
        professionalType := input.professionalType, isVerified := false,
        createdAt := now, updatedAt := now }
    ({ users := s.users ++ [user], nextUserId := s.nextUserId + 1 }, .ok user)

/-- Embedding of loginUser: look the user up by email, return none when
absent or when the password does not verify, the record otherwise. Bad
credentials never throw: the only error paths in the source are storage
failures, outside this model. -/
def loginUser (hp : String → String) (s : UserState) (input : LoginInput) :
    Option UserRow :=
  match s.users.filter (fun u => u.email == input.email) with
  | [] => none
  | user :: _ =>
    if verifyPassword hp input.password user.password then some user else none

/-! Case handlers, from handlers/cases.ts (the implemented getCases). -/

structure CasesQueryInput where
  page : Option Nat
  limit : Option Nat
  caseType : Option CaseType
  priority : Option CasePriority
  status : Option CaseStatus
  isPublic : Option Bool
  creatorId : Option Nat
  tag : Option String
  sortBy : Option CaseSortBy
deriving DecidableEq

/-- Rank used by the custom priority ORDER BY: urgent first, low last. -/
def priorityRank : CasePriority → Nat
  | CasePriority.urgent => 1
  | CasePriority.high => 2
  | CasePriority.medium => 3
  | CasePriority.low => 4

/-- Rank of a status in the declaration order of the database enum, which is
the order a raw ORDER BY on the enum column uses. -/
def statusRank : CaseStatus → Nat
  | CaseStatus.draft => 0
  | CaseStatus.active => 1
  | CaseStatus.inProgress => 2
  | CaseStatus.completed => 3
  | CaseStatus.cancelled => 4

/-- ORDER BY comparison used by getCases. -/
def caseSortLe (sortBy : Option CaseSortBy) (a b : CaseRow) : Bool :=
  match sortBy with
  | some CaseSortBy.oldest => decide (a.createdAt ≤ b.createdAt)
  | some CaseSortBy.byPriority => decide (priorityRank a.priority ≤ priorityRank b.priority)
  | some CaseSortBy.byStatus => decide (statusRank a.status ≤ statusRank b.status)
  | _ => decide (b.createdAt ≤ a.createdAt)

/-- Privacy condition getCases pushes first: anonymous callers (including a
falsy 0 identity) see only public cases; an authenticated caller additionally
sees their own cases, and cases in the precomputed collaborated-id list when
that list is nonempty. -/
def getCasesVisCond (userId : Option Nat) (collaboratedCaseIds : List Nat)
    (c : CaseRow) : Bool :=
  match idActive userId with
  | some uid =>
    if collaboratedCaseIds.length > 0 then
      c.isPublic || c.creatorId == uid || collaboratedCaseIds.contains c.id
    else
      c.isPublic || c.creatorId == uid
  | none => c.isPublic

/-- Field filters getCases pushes after the privacy condition: enum equality
filters when present, the isPublic filter when defined, and the creator filter
when truthy. -/
def caseFieldFilters (q : CasesQueryInput) (c : CaseRow) : Bool :=
  (match q.caseType with
   | some ct => c.caseType == ct
   | none => true) &&
  (match q.priority with
   | some pr => c.priority == pr
   | none => true) &&
  (match q.status with
   | some st => c.status == st
   | none => true) &&
  (match q.isPublic with
   | some b => c.isPublic == b
   | none => true) &&
  (match idActive q.creatorId with
   | some cid => c.creatorId == cid
   | none => true)

/-- Embedding of getCases: precompute collaborated case ids for authenticated
callers and tagged case ids under a truthy tag filter (short-circuiting to the
empty list when no row carries the tag); AND the privacy condition, field
filters, and tag membership; then order and paginate. -/
def getCases (s : CaseState) (q : CasesQueryInput) (userId : Option Nat) :
    List CaseRow :=
  let page := orDefaultNat q.page 1
  let limit := orDefaultNat q.limit 10
  let offset := (page - 1) * limit
  let collaboratedCaseIds : List Nat :=
    match idActive userId with
    | some uid => (s.caseCollaborators.filter (fun r => r.userId == uid)).map
        (fun r => r.caseId)
    | none => []
  let taggedCaseIds : List Nat :=
    match tagActive q.tag with
    | some t => (s.caseTags.filter (fun r => r.tag == t)).map (fun r => r.caseId)
    | none => []
  if (tagActive q.tag).isSome && taggedCaseIds.length = 0 then []
  else
    let conds : CaseRow → Bool := fun c =>
      getCasesVisCond userId collaboratedCaseIds c &&
      caseFieldFilters q c &&
      (match tagActive q.tag with
       | some _ => if taggedCaseIds.length > 0 then taggedCaseIds.contains c.id else true
       | none => true)
    paginateRows offset limit (sortLe (caseSortLe q.sortBy) (s.cases.filter conds))

/-! Helper lemmas about the list embedding of SQL statements. -/

theorem filter_map_comm {α : Type} (f : α → α) (p : α → Bool)
    (hpf : ∀ x, p (f x) = p x) (l : List α) :
    (l.map f).filter p = (l.filter p).map f := by
  rw [List.filter_map]
  congr 1
  apply List.filter_congr
  intro x _
  exact hpf x

theorem length_filter_zero_iff {α : Type} (p : α → Bool) (l : List α) :
    (l.filter p).length = 0 ↔ ∀ a ∈ l, ¬ p a := by
  rw [List.length_eq_zero, List.filter_eq_nil_iff]

/-! Claim C10: behaviour on a nonexistent post id. -/

/-- Claim C10: voteOnPost and toggleBookmark called with a post id that no
post row carries throw the missing-post error instead of returning a falsy
result, and the returned state is exactly the input state, so the vote,
bookmark and post tables are unchanged. -/
theorem missingPost_throws (s : ForumState) (pid userId : Nat) (vt : VoteType)
    (h : ∀ p ∈ s.posts, p.id ≠ pid) :
    voteOnPost s { postId := pid, voteType := vt } userId =
        (s, Except.error "Forum post does not exist") ∧
    toggleBookmark s { postId := pid } userId =
        (s, Except.error "Forum post does not exist") := by
  have hf : s.posts.filter (fun p => p.id == pid) = [] := by
    rw [List.filter_eq_nil_iff]
    intro p hp
    simp [h p hp]
  constructor
  · simp [voteOnPost, hf]
  · simp [toggleBookmark, hf]

/-- Empty forum store used to instantiate the missing-post theorem. -/
def emptyForumState : ForumState :=
  { categories := [], posts := [], postTags := [], comments := [], votes := [],
    bookmarks := [], nextPostId := 1, nextCommentId := 1 }

theorem missingPost_throws_witness :
    voteOnPost emptyForumState { postId := 5, voteType := VoteType.up } 2 =
        (emptyForumState, Except.error "Forum post does not exist") ∧
    toggleBookmark emptyForumState { postId := 5 } 2 =
        (emptyForumState, Except.error "Forum post does not exist") :=
  missingPost_throws emptyForumState 5 2 VoteType.up (by intro p hp; simp [emptyForumState] at hp)

/-! Claim C1: flipping an existing vote. -/

/-- Claim C1: when the vote table holds exactly the one row the primary key
allows for the pair and its direction differs from the request, voteOnPost
leaves exactly one row for the pair carrying the new direction, and every post
row with the voted id has the old-direction counter decremented by one and the
new-direction counter incremented by one. -/
theorem voteOnPost_flip (s : ForumState) (input : VotePostInput) (userId : Nat)
    (old : VoteType)
    (hpost : s.posts.filter (fun p => p.id == input.postId) ≠ [])
    (hvote : s.votes.filter (fun v => v.userId == userId && v.postId == input.postId) =
      [{ userId := userId, postId := input.postId, voteType := old }])
    (hdiff : old ≠ input.voteType) :
    (voteOnPost s input userId).2 = Except.ok true ∧
    ((voteOnPost s input userId).1).votes.filter
        (fun v => v.userId == userId && v.postId == input.postId) =
      [{ userId := userId, postId := input.postId, voteType := input.voteType }] ∧
    ((voteOnPost s input userId).1).posts = s.posts.map (fun p =>
      if p.id == input.postId then
        match input.voteType with
        | VoteType.up => { p with upvotes := p.upvotes + 1, downvotes := p.downvotes - 1 }
        | VoteType.down => { p with upvotes := p.upvotes - 1, downvotes := p.downvotes + 1 }
      else p) := by
  have hlen : ¬ (s.posts.filter (fun p => p.id == input.postId)).length = 0 := by
    simpa [List.length_eq_zero] using hpost
  simp only [voteOnPost, if_neg hlen, hvote]
  simp only [if_neg hdiff]
  refine ⟨by simp, ?_, ?_⟩
  · rw [filter_map_comm _ _ ?hcomm, hvote]
    case hcomm =>
      intro v
      by_cases h1 : v.userId = userId
      · by_cases h2 : v.postId = input.postId
        · simp [h1, h2]
        · simp [h1, h2]
      · simp [h1]
    simp
  · cases input.voteType <;> simp

/-- Post row used in the concrete vote scenarios. -/
def voteDemoPost : PostRow :=
  { id := 1, title := "t", content := "c", excerpt := none, authorId := 1,
    categoryId := 1, createdAt := 0, updatedAt := 0, upvotes := 1,
    downvotes := 0, viewCount := 0, commentCount := 0 }

/-- Store holding one post and one existing upvote by user 7, used to
instantiate the direction-flip theorem. -/
def flipDemoState : ForumState :=
  { categories := [{ id := 1, name := "g", description := none }],
    posts := [voteDemoPost], postTags := [], comments := [],
    votes := [{ userId := 7, postId := 1, voteType := VoteType.up }],
    bookmarks := [], nextPostId := 2, nextCommentId := 1 }

theorem voteOnPost_flip_witness :
    (voteOnPost flipDemoState { postId := 1, voteType := VoteType.down } 7).2 =
        Except.ok true ∧
    ((voteOnPost flipDemoState { postId := 1, voteType := VoteType.down } 7).1).votes.filter
        (fun v => v.userId == 7 && v.postId == 1) =
      [{ userId := 7, postId := 1, voteType := VoteType.down }] ∧
    ((voteOnPost flipDemoState { postId := 1, voteType := VoteType.down } 7).1).posts =
      flipDemoState.posts.map (fun p =>
        if p.id == 1 then
          match VoteType.down with
          | VoteType.up => { p with upvotes := p.upvotes + 1, downvotes := p.downvotes - 1 }
          | VoteType.down => { p with upvotes := p.upvotes - 1, downvotes := p.downvotes + 1 }
        else p) :=
  voteOnPost_flip flipDemoState { postId := 1, voteType := VoteType.down } 7
    VoteType.up (by decide) (by decide) (by decide)

/-! Claim C2: voting the same direction twice. -/

/-- Store holding one post with one existing downvote by user 7; it refutes
the unconditional round-trip reading of the double-vote claim, because the
first up-vote flips the existing vote instead of inserting one. -/
def cancelCeState : ForumState :=
  { categories := [{ id := 1, name := "g", description := none }],
    posts := [{ voteDemoPost with upvotes := 0, downvotes := 1 }],
    postTags := [], comments := [],
    votes := [{ userId := 7, postId := 1, voteType := VoteType.down }],
    bookmarks := [], nextPostId := 2, nextCommentId := 1 }

/-- Counterexample to claim C2 as stated: in a state where the post exists
but the user already holds a vote of the other direction, voting the same
direction twice does not restore the initial state. -/
theorem voteOnPost_twice_not_roundtrip :
    cancelCeState.posts.filter (fun p => p.id == 1) ≠ [] ∧
    (voteOnPost (voteOnPost cancelCeState { postId := 1, voteType := VoteType.up } 7).1
        { postId := 1, voteType := VoteType.up } 7).1 ≠ cancelCeState := by
  decide

/-- Branch equation for voteOnPost: with the post present and no existing
vote row for the pair, the handler appends the vote row and bumps the matching
counter on every post row with the voted id. -/
theorem voteOnPost_insert_eq (s : ForumState) (input : VotePostInput) (userId : Nat)
    (hlen : ¬ (s.posts.filter (fun p => p.id == input.postId)).length = 0)
    (hvote : s.votes.filter (fun v => v.userId == userId && v.postId == input.postId) = []) :
    voteOnPost s input userId =
      ({ s with
          votes := s.votes ++
            [{ userId := userId, postId := input.postId, voteType := input.voteType }],
          posts :=
            if input.voteType = VoteType.up then
              s.posts.map (fun p => if p.id == input.postId then
                { p with upvotes := p.upvotes + 1 } else p)
            else
              s.posts.map (fun p => if p.id == input.postId then
                { p with downvotes := p.downvotes + 1 } else p) }, Except.ok true) := by
  simp only [voteOnPost, if_neg hlen, hvote]

/-- Branch equation for voteOnPost: an existing vote of the requested
direction is deleted and the matching counter decremented. -/
theorem voteOnPost_delete_eq (s : ForumState) (input : VotePostInput) (userId : Nat)
    (row : VoteRow) (rest : List VoteRow)
    (hlen : ¬ (s.posts.filter (fun p => p.id == input.postId)).length = 0)
    (hvote : s.votes.filter (fun v => v.userId == userId && v.postId == input.postId) =
      row :: rest)
    (hsame : row.voteType = input.voteType) :
    voteOnPost s input userId =
      ({ s with
          votes := s.votes.filter
            (fun v => !(v.userId == userId && v.postId == input.postId)),
          posts :=
            if input.voteType = VoteType.up then
              s.posts.map (fun p => if p.id == input.postId then
                { p with upvotes := p.upvotes - 1 } else p)
            else
              s.posts.map (fun p => if p.id == input.postId then
                { p with downvotes := p.downvotes - 1 } else p) }, Except.ok true) := by
  simp only [voteOnPost, if_neg hlen, hvote]
  rw [if_pos hsame]

/-- Branch equation for voteOnPost: an existing vote of the other direction
is flipped in place and both counters adjusted. -/
theorem voteOnPost_update_eq (s : ForumState) (input : VotePostInput) (userId : Nat)
    (row : VoteRow) (rest : List VoteRow)
    (hlen : ¬ (s.posts.filter (fun p => p.id == input.postId)).length = 0)
    (hvote : s.votes.filter (fun v => v.userId == userId && v.postId == input.postId) =
      row :: rest)
    (hdiff : ¬ row.voteType = input.voteType) :
    voteOnPost s input userId =
      ({ s with
          votes := s.votes.map
            (fun v => if v.userId == userId && v.postId == input.postId then
              { v with voteType := input.voteType } else v),
          posts :=
            if input.voteType = VoteType.up then
              s.posts.map (fun p => if p.id == input.postId then
                { p with upvotes := p.upvotes + 1, downvotes := p.downvotes - 1 } else p)
            else
              s.posts.map (fun p => if p.id == input.postId then
                { p with upvotes := p.upvotes - 1, downvotes := p.downvotes + 1 } else p) },
       Except.ok true) := by
  simp only [voteOnPost, if_neg hlen, hvote]
  rw [if_neg hdiff]

/-- Branch equation for voteOnPost: a missing post throws. -/
theorem voteOnPost_error_eq (s : ForumState) (input : VotePostInput) (userId : Nat)
    (hlen : (s.posts.filter (fun p => p.id == input.postId)).length = 0) :
    voteOnPost s input userId = (s, Except.error "Forum post does not exist") := by
  simp only [voteOnPost, if_pos hlen]

/-- Counter adjustments around the voted post id cancel each other: mapping a
bump and then its inverse over the table is the identity. -/
theorem map_adjust_cancel (g1 g2 : PostRow → PostRow) (pid : Nat)
    (hcancel : ∀ p : PostRow, p.id = pid → g2 (g1 p) = p)
    (hg1 : ∀ p : PostRow, (g1 p).id = p.id) (l : List PostRow) :
    (l.map (fun p => if p.id == pid then g1 p else p)).map
      (fun p => if p.id == pid then g2 p else p) = l := by
  rw [List.map_map]
  have hpt : ∀ p : PostRow,
      ((fun p => if p.id == pid then g2 p else p) ∘
        (fun p => if p.id == pid then g1 p else p)) p = p := by
    intro p
    by_cases hp : p.id = pid
    · simp [Function.comp, hp, hg1, hcancel p hp]
    · simp [Function.comp, hp]
  rw [List.map_congr_left (fun p _ => hpt p)]
  simp

/-- Filtering on the post id commutes with a counter adjustment map, which
only touches rows with that id and never changes ids. -/
theorem filter_id_map_adjust (g : PostRow → PostRow)
    (hg : ∀ p : PostRow, (g p).id = p.id) (pid : Nat) (l : List PostRow) :
    (l.map (fun p => if p.id == pid then g p else p)).filter (fun p => p.id == pid) =
      (l.filter (fun p => p.id == pid)).map (fun p => if p.id == pid then g p else p) := by
  apply filter_map_comm
  intro p
  by_cases hp : p.id = pid
  · simp [hp, hg]
  · simp [hp]

/-- Claim C2 as amended: when the post exists and the caller holds no vote on
it yet, voting the same direction twice is a round trip: both calls succeed
and the final state, counters and vote table included, is the initial one. -/
theorem voteOnPost_cancel_roundtrip (s : ForumState) (input : VotePostInput)
    (userId : Nat)
    (hpost : s.posts.filter (fun p => p.id == input.postId) ≠ [])
    (hvote : s.votes.filter (fun v => v.userId == userId && v.postId == input.postId) = []) :
    (voteOnPost s input userId).2 = Except.ok true ∧
    (voteOnPost (voteOnPost s input userId).1 input userId).2 = Except.ok true ∧
    (voteOnPost (voteOnPost s input userId).1 input userId).1 = s := by
  have hlen : ¬ (s.posts.filter (fun p => p.id == input.postId)).length = 0 := by
    simpa [List.length_eq_zero] using hpost
  rw [voteOnPost_insert_eq s input userId hlen hvote]
  have hlen1 : ¬ (((if input.voteType = VoteType.up then
      s.posts.map (fun p => if p.id == input.postId then
        { p with upvotes := p.upvotes + 1 } else p)
    else
      s.posts.map (fun p => if p.id == input.postId then
        { p with downvotes := p.downvotes + 1 } else p))).filter
        (fun p => p.id == input.postId)).length = 0 := by
    by_cases hv : input.voteType = VoteType.up
    · rw [if_pos hv, filter_id_map_adjust (fun p => { p with upvotes := p.upvotes + 1 })
        (fun p => rfl) input.postId s.posts, List.length_map]
      exact hlen
    · rw [if_neg hv, filter_id_map_adjust (fun p => { p with downvotes := p.downvotes + 1 })
        (fun p => rfl) input.postId s.posts, List.length_map]
      exact hlen
  have hrow : (s.votes ++
      [({ userId := userId, postId := input.postId, voteType := input.voteType } : VoteRow)]).filter
        (fun v => v.userId == userId && v.postId == input.postId) =
      [({ userId := userId, postId := input.postId, voteType := input.voteType } : VoteRow)] := by
    rw [List.filter_append, hvote]
    simp
  have hkeep : (s.votes ++
      [({ userId := userId, postId := input.postId, voteType := input.voteType } : VoteRow)]).filter
        (fun v => !(v.userId == userId && v.postId == input.postId)) = s.votes := by
    rw [List.filter_append]
    have h1 : s.votes.filter (fun v => !(v.userId == userId && v.postId == input.postId)) =
        s.votes := by
      rw [List.filter_eq_self]
      intro v hv
      have h2 := (List.filter_eq_nil_iff.mp hvote) v hv
      rw [Bool.not_eq_true] at h2
      rw [h2]
      rfl
    rw [h1]
    simp
  rw [voteOnPost_delete_eq _ input userId _ [] hlen1 hrow rfl]
  refine ⟨rfl, rfl, ?_⟩
  show ({ s with
      votes := (s.votes ++
        [({ userId := userId, postId := input.postId, voteType := input.voteType } : VoteRow)]).filter
          (fun v => !(v.userId == userId && v.postId == input.postId)),
      posts := _ } : ForumState) = s
  rw [hkeep]
  by_cases hv : input.voteType = VoteType.up
  · rw [if_pos hv, if_pos hv,
      map_adjust_cancel (fun p => { p with upvotes := p.upvotes + 1 })
        (fun p => { p with upvotes := p.upvotes - 1 }) input.postId
        (fun p _ => by cases p; simp) (fun p => rfl) s.posts]
  · rw [if_neg hv, if_neg hv,
      map_adjust_cancel (fun p => { p with downvotes := p.downvotes + 1 })
        (fun p => { p with downvotes := p.downvotes - 1 }) input.postId
        (fun p _ => by cases p; simp) (fun p => rfl) s.posts]

/-! Claim C3: at most one vote row per (user, post). -/

/-- Invariant of the vote table: the rows matching any one (user, post) pair
number at most one; the composite primary key guarantees this in the store
and the handler branches preserve it. -/
def VoteInv (s : ForumState) : Prop :=
  ∀ u p : Nat, (s.votes.filter (fun v => v.userId == u && v.postId == p)).length ≤ 1

theorem voteOnPost_inv_step (s : ForumState) (input : VotePostInput) (userId : Nat)
    (h : VoteInv s) : VoteInv (voteOnPost s input userId).1 := by
  by_cases hlen : (s.posts.filter (fun q => q.id == input.postId)).length = 0
  · rw [voteOnPost_error_eq s input userId hlen]
    exact h
  · cases hv : s.votes.filter (fun v => v.userId == userId && v.postId == input.postId) with
    | nil =>
      rw [voteOnPost_insert_eq s input userId hlen hv]
      intro u p
      show ((s.votes ++
          [({ userId := userId, postId := input.postId, voteType := input.voteType } : VoteRow)]).filter
            (fun v => v.userId == u && v.postId == p)).length ≤ 1
      rw [List.filter_append, List.length_append]
      by_cases h1 : u = userId ∧ p = input.postId
      · obtain ⟨hu, hp2⟩ := h1
        subst hu
        subst hp2
        rw [hv]
        simp
      · have hb : List.filter (fun v => v.userId == u && v.postId == p)
            [({ userId := userId, postId := input.postId, voteType := input.voteType } : VoteRow)] =
            [] := by
          rw [List.filter_eq_nil_iff]
          intro a ha
          rw [List.mem_singleton] at ha
          subst ha
          intro hcontra
          rw [Bool.and_eq_true, beq_iff_eq, beq_iff_eq] at hcontra
          exact h1 ⟨hcontra.1.symm, hcontra.2.symm⟩
        rw [hb]
        simpa using h u p
    | cons row rest =>
      by_cases hsame : row.voteType = input.voteType
      · rw [voteOnPost_delete_eq s input userId row rest hlen hv hsame]
        intro u p
        show ((s.votes.filter
            (fun v => !(v.userId == userId && v.postId == input.postId))).filter
              (fun v => v.userId == u && v.postId == p)).length ≤ 1
        exact le_trans (List.Sublist.length_le
          ((List.filter_sublist s.votes).filter _)) (h u p)
      · rw [voteOnPost_update_eq s input userId row rest hlen hv hsame]
        intro u p
        show (((s.votes.map
            (fun v => if v.userId == userId && v.postId == input.postId then
              { v with voteType := input.voteType } else v))).filter
              (fun v => v.userId == u && v.postId == p)).length ≤ 1
        rw [filter_map_comm _ _ ?hpf, List.length_map]
        case hpf =>
          intro v
          by_cases hk : (v.userId == userId && v.postId == input.postId) = true
          · rw [if_pos hk]
          · rw [if_neg hk]
        exact h u p

/-- State transformer of one vote call, keeping the post-call store. -/
def applyVote (s : ForumState) (call : VotePostInput × Nat) : ForumState :=
  (voteOnPost s call.1 call.2).1

/-- State reached after a sequence of vote calls. -/
def runVotes (s : ForumState) (calls : List (VotePostInput × Nat)) : ForumState :=
  calls.foldl applyVote s

/-- Claim C3: from any store satisfying the one-row-per-pair invariant, every
sequence of voteOnPost calls preserves it, and every stored vote row carries
exactly one of the two directions. -/
theorem voteOnPost_vote_invariant (s : ForumState) (calls : List (VotePostInput × Nat))
    (h : VoteInv s) :
    VoteInv (runVotes s calls) ∧
    ∀ v ∈ (runVotes s calls).votes,
      v.voteType = VoteType.up ∨ v.voteType = VoteType.down := by
  constructor
  · induction calls generalizing s with
    | nil => exact h
    | cons c cs ih => exact ih (applyVote s c) (voteOnPost_inv_step s c.1 c.2 h)
  · intro v _
    cases hvt : v.voteType
    · exact Or.inl rfl
    · exact Or.inr rfl

/-- Store with one post and an empty vote table, used to instantiate the
invariant theorem on a concrete call sequence. -/
def invDemoState : ForumState :=
  { categories := [{ id := 1, name := "g", description := none }],
    posts := [voteDemoPost], postTags := [], comments := [], votes := [],
    bookmarks := [], nextPostId := 2, nextCommentId := 1 }

theorem voteOnPost_vote_invariant_witness :
    VoteInv (runVotes invDemoState
      [({ postId := 1, voteType := VoteType.up }, 1),
       ({ postId := 1, voteType := VoteType.down }, 2),
       ({ postId := 1, voteType := VoteType.down }, 1)]) ∧
    ∀ v ∈ (runVotes invDemoState
      [({ postId := 1, voteType := VoteType.up }, 1),
       ({ postId := 1, voteType := VoteType.down }, 2),
       ({ postId := 1, voteType := VoteType.down }, 1)]).votes,
      v.voteType = VoteType.up ∨ v.voteType = VoteType.down :=
  voteOnPost_vote_invariant invDemoState
    [({ postId := 1, voteType := VoteType.up }, 1),
     ({ postId := 1, voteType := VoteType.down }, 2),
     ({ postId := 1, voteType := VoteType.down }, 1)]
    (by intro u p; simp [invDemoState])

theorem voteOnPost_cancel_roundtrip_witness :
    (voteOnPost flipDemoState { postId := 1, voteType := VoteType.down } 9).2 =
        Except.ok true ∧
    (voteOnPost (voteOnPost flipDemoState { postId := 1, voteType := VoteType.down } 9).1
        { postId := 1, voteType := VoteType.down } 9).2 = Except.ok true ∧
    (voteOnPost (voteOnPost flipDemoState { postId := 1, voteType := VoteType.down } 9).1
        { postId := 1, voteType := VoteType.down } 9).1 = flipDemoState :=
  voteOnPost_cancel_roundtrip flipDemoState { postId := 1, voteType := VoteType.down } 9
    (by decide) (by decide)

/-! Claim C5: duplicate-email registration. -/

/-- Claim C5: registerUser with an email already present in the users table
returns the duplicate-email error together with the unchanged table, and a
successful registration followed by another registration under the same email
always fails on the second call with the same error and unchanged table. -/
theorem registerUser_duplicate_email (hp : String → String) (s : UserState)
    (input : CreateUserInput) (now : Nat) :
    ((∃ u ∈ s.users, u.email = input.email) →
      registerUser hp s input now = (s, Except.error "Email already exists")) ∧
    (∀ (s2 : UserState) (u : UserRow) (input2 : CreateUserInput) (now2 : Nat),
      registerUser hp s input now = (s2, Except.ok u) →
      input2.email = input.email →
      registerUser hp s2 input2 now2 = (s2, Except.error "Email already exists")) := by
  constructor
  · rintro ⟨u, hu, he⟩
    have hpos : (s.users.filter (fun x => x.email == input.email)).length > 0 := by
      have : u ∈ s.users.filter (fun x => x.email == input.email) := by
        rw [List.mem_filter]
        exact ⟨hu, by simp [he]⟩
      exact List.length_pos_of_mem this
    simp only [registerUser, if_pos hpos]
  · intro s2 u input2 now2 hok he2
    by_cases hdup : (s.users.filter (fun x => x.email == input.email)).length > 0
    · simp only [registerUser, if_pos hdup] at hok
      exact absurd (congrArg Prod.snd hok) (by simp)
    · simp only [registerUser, if_neg hdup] at hok
      have hs2 : s2.users = s.users ++
          [({ id := s.nextUserId, name := input.name, email := input.email,
              password := hashPassword hp input.password,
              avatarUrl := match input.avatarUrl with
                | some a => if a = "" then none else some a
                | none => none,
              professionalType := input.professionalType, isVerified := false,
              createdAt := now, updatedAt := now } : UserRow)] := by
        have := congrArg Prod.fst hok
        simp only at this
        rw [← this]
      have hpos2 : (s2.users.filter (fun x => x.email == input2.email)).length > 0 := by
        rw [hs2, List.filter_append, List.length_append]
        have : (List.filter (fun x => x.email == input2.email)
            [({ id := s.nextUserId, name := input.name, email := input.email,
                password := hashPassword hp input.password,
                avatarUrl := match input.avatarUrl with
                  | some a => if a = "" then none else some a
                  | none => none,
                professionalType := input.professionalType, isVerified := false,
                createdAt := now, updatedAt := now } : UserRow)]).length = 1 := by
          simp [he2]
        rw [this]
        exact Nat.lt_of_lt_of_le (Nat.zero_lt_one) (Nat.le_add_left 1 _)
      simp only [registerUser, if_pos hpos2]

/-- Empty users table for instantiating the auth theorems. -/
def emptyUserState : UserState := { users := [], nextUserId := 1 }

/-- Registration input used in the concrete auth scenarios. -/
def demoRegInput : CreateUserInput :=
  { name := "a", email := "a@b.c", password := "password1", avatarUrl := none,
    professionalType := ProfessionalType.clinician }

/-- Row stored by the first registration in the duplicate-email scenario. -/
def demoRegRow : UserRow :=
  { id := 1, name := "a", email := "a@b.c",
    password := hashPassword id "password1", avatarUrl := none,
    professionalType := ProfessionalType.clinician, isVerified := false,
    createdAt := 0, updatedAt := 0 }

theorem registerUser_duplicate_email_witness :
    registerUser id
      (registerUser id emptyUserState demoRegInput 0).1 demoRegInput 1 =
      ((registerUser id emptyUserState demoRegInput 0).1,
        Except.error "Email already exists") :=
  (registerUser_duplicate_email id emptyUserState demoRegInput 0).2
    (registerUser id emptyUserState demoRegInput 0).1
    demoRegRow demoRegInput 1 (by rfl) rfl

/-! Claim C6: login outcomes. -/

/-- Claim C6: loginUser yields the first user row carrying the email when the
stored hash verifies, and none (rather than an error value) when the email is
unknown or verification fails. -/
theorem loginUser_credentials (hp : String → String) (s : UserState)
    (input : LoginInput) :
    (∀ u : UserRow,
      (s.users.filter (fun x => x.email == input.email)).head? = some u →
      ((verifyPassword hp input.password u.password = true →
          loginUser hp s input = some u) ∧
       (verifyPassword hp input.password u.password = false →
          loginUser hp s input = none))) ∧
    ((∀ u ∈ s.users, u.email ≠ input.email) → loginUser hp s input = none) := by
  constructor
  · intro u hu
    cases hf : s.users.filter (fun x => x.email == input.email) with
    | nil =>
      rw [hf] at hu
      exact absurd hu (by simp)
    | cons a t =>
      rw [hf] at hu
      rw [List.head?_cons, Option.some_inj] at hu
      subst hu
      constructor
      · intro hver
        simp only [loginUser, hf, if_pos hver]
      · intro hver
        simp only [loginUser, hf]
        rw [if_neg (by rw [hver]; exact Bool.false_ne_true)]
  · intro hnone
    have hf : s.users.filter (fun x => x.email == input.email) = [] := by
      rw [List.filter_eq_nil_iff]
      intro x hx
      simp [hnone x hx]
    simp only [loginUser, hf]

/-- Users table holding one registered row, used for the login scenarios. -/
def loginDemoState : UserState :=
  { users := [demoRegRow], nextUserId := 2 }

theorem loginUser_credentials_witness :
    loginUser id loginDemoState { email := "a@b.c", password := "password1" } =
      some demoRegRow :=
  (((loginUser_credentials id loginDemoState
      { email := "a@b.c", password := "password1" }).1
    demoRegRow (by decide)).1) (by decide)

/-! Claim C7: cascading delete of a forum post. -/

/-- Claim C7: deleteForumPost run by the author removes the post and every
tag, comment, vote and bookmark row referencing it and returns true; on a
missing post it returns false with the state unchanged; for a non-author it
throws and changes nothing. -/
theorem deleteForumPost_cascade (s : ForumState) (postId userId : Nat) :
    (∀ p : PostRow, (s.posts.filter (fun x => x.id == postId)).head? = some p →
      ((p.authorId = userId →
        (deleteForumPost s postId userId).2 = Except.ok true ∧
        ((deleteForumPost s postId userId).1).posts.filter (fun x => x.id == postId) = [] ∧
        ((deleteForumPost s postId userId).1).postTags.filter (fun r => r.postId == postId) = [] ∧
        ((deleteForumPost s postId userId).1).comments.filter (fun c => c.postId == postId) = [] ∧
        ((deleteForumPost s postId userId).1).votes.filter (fun v => v.postId == postId) = [] ∧
        ((deleteForumPost s postId userId).1).bookmarks.filter (fun b => b.postId == postId) = []) ∧
       (p.authorId ≠ userId →
        deleteForumPost s postId userId =
          (s, Except.error "Only the author can delete this post")))) ∧
    (s.posts.filter (fun x => x.id == postId) = [] →
      deleteForumPost s postId userId = (s, Except.ok false)) := by
  have hclear : ∀ {α : Type} (p : α → Bool) (l : List α),
      (l.filter (fun x => !(p x))).filter p = [] := by
    intro α p l
    rw [List.filter_eq_nil_iff]
    intro a ha
    rw [List.mem_filter] at ha
    rw [Bool.not_eq_true]
    have h2 := ha.2
    rw [Bool.not_eq_true'] at h2
    exact h2
  constructor
  · intro p hp
    cases hf : s.posts.filter (fun x => x.id == postId) with
    | nil =>
      rw [hf] at hp
      exact absurd hp (by simp)
    | cons a t =>
      rw [hf] at hp
      rw [List.head?_cons, Option.some_inj] at hp
      subst hp
      constructor
      · intro hauth
        simp only [deleteForumPost, hf]
        rw [if_neg (by simp [hauth])]
        refine ⟨rfl, ?_, ?_, ?_, ?_, ?_⟩
        · exact hclear _ s.posts
        · exact hclear _ s.postTags
        · exact hclear _ s.comments
        · exact hclear _ s.votes
        · exact hclear _ s.bookmarks
      · intro hauth
        simp only [deleteForumPost, hf]
        rw [if_pos hauth]
  · intro hf
    simp only [deleteForumPost, hf]

/-- Comment row attached to the demo post in the cascade-delete scenario. -/
def deleteDemoComment : CommentRow :=
  { id := 1, postId := 1, authorId := 2, content := "c", createdAt := 0, updatedAt := 0 }

/-- Forum store with one post and dependent rows of every kind, used to
instantiate the cascade-delete theorem. -/
def deleteDemoState : ForumState :=
  { categories := [{ id := 1, name := "g", description := none }],
    posts := [voteDemoPost],
    postTags := [{ postId := 1, tag := "x" }],
    comments := [deleteDemoComment],
    votes := [{ userId := 2, postId := 1, voteType := VoteType.up }],
    bookmarks := [{ userId := 2, postId := 1 }],
    nextPostId := 2, nextCommentId := 2 }

theorem deleteForumPost_cascade_witness :
    (deleteForumPost deleteDemoState 1 1).2 = Except.ok true ∧
    ((deleteForumPost deleteDemoState 1 1).1).posts.filter (fun x => x.id == 1) = [] ∧
    ((deleteForumPost deleteDemoState 1 1).1).postTags.filter (fun r => r.postId == 1) = [] ∧
    ((deleteForumPost deleteDemoState 1 1).1).comments.filter (fun c => c.postId == 1) = [] ∧
    ((deleteForumPost deleteDemoState 1 1).1).votes.filter (fun v => v.postId == 1) = [] ∧
    ((deleteForumPost deleteDemoState 1 1).1).bookmarks.filter (fun b => b.postId == 1) = [] :=
  (((deleteForumPost_cascade deleteDemoState 1 1).1 voteDemoPost (by decide)).1) (by decide)

/-! Claim C8: derived excerpt on post creation. -/

/-- Claim C8: createForumPost with no explicit excerpt stores the derived one:
the content with markup stripped and surrounding whitespace trimmed, stored
unchanged when at most 150 characters long, and otherwise truncated to its
first 150 characters, trimmed, with an ellipsis appended. -/
theorem createForumPost_derived_excerpt (s : ForumState)
    (input : CreateForumPostInput) (authorId now : Nat)
    (hcat : s.categories.filter (fun c => c.id == input.categoryId) ≠ [])
    (hex : input.excerpt = none) :
    ∃ post : PostRow,
      (createForumPost s input authorId now).2 = Except.ok post ∧
      ((createForumPost s input authorId now).1).posts = s.posts ++ [post] ∧
      post.excerpt = some (generateExcerpt input.content) ∧
      ((jsTrim (stripTags input.content.data)).length ≤ 150 →
        post.excerpt = some (String.mk (jsTrim (stripTags input.content.data)))) ∧
      (150 < (jsTrim (stripTags input.content.data)).length →
        post.excerpt = some (String.mk
          (jsTrim ((jsTrim (stripTags input.content.data)).take 150)) ++ "...")) := by
  have hlen : ¬ (s.categories.filter (fun c => c.id == input.categoryId)).length = 0 := by
    simpa [List.length_eq_zero] using hcat
  refine ⟨{ id := s.nextPostId, title := input.title, content := input.content,
            excerpt := some (generateExcerpt input.content), authorId := authorId,
            categoryId := input.categoryId, createdAt := now, updatedAt := now,
            upvotes := 0, downvotes := 0, viewCount := 0, commentCount := 0 },
          ?_, ?_, rfl, ?_, ?_⟩
  · simp only [createForumPost, if_neg hlen, hex]
  · simp only [createForumPost, if_neg hlen, hex]
  · intro hle
    simp only [generateExcerpt]
    rw [if_pos hle]
  · intro hgt
    simp only [generateExcerpt]
    rw [if_neg (Nat.not_le_of_lt hgt)]

/-- Store with one category, used to instantiate the excerpt theorem. -/
def excerptDemoState : ForumState :=
  { categories := [{ id := 1, name := "g", description := none }],
    posts := [], postTags := [], comments := [], votes := [], bookmarks := [],
    nextPostId := 1, nextCommentId := 1 }

/-- Post creation input with markup content and no explicit excerpt. -/
def excerptDemoInput : CreateForumPostInput :=
  { title := "t", content := " <p>hello</p> ", excerpt := none, categoryId := 1,
    tags := none }

theorem createForumPost_derived_excerpt_witness :
    ∃ post : PostRow,
      (createForumPost excerptDemoState excerptDemoInput 1 0).2 = Except.ok post ∧
      ((createForumPost excerptDemoState excerptDemoInput 1 0).1).posts =
        excerptDemoState.posts ++ [post] ∧
      post.excerpt = some (generateExcerpt excerptDemoInput.content) ∧
      ((jsTrim (stripTags excerptDemoInput.content.data)).length ≤ 150 →
        post.excerpt = some (String.mk (jsTrim (stripTags excerptDemoInput.content.data)))) ∧
      (150 < (jsTrim (stripTags excerptDemoInput.content.data)).length →
        post.excerpt = some (String.mk
          (jsTrim ((jsTrim (stripTags excerptDemoInput.content.data)).take 150)) ++ "...")) :=
  createForumPost_derived_excerpt excerptDemoState excerptDemoInput 1 0 (by decide) rfl

/-! Spec-side predicates for the query claims C4 and C9, written from the
wording of the specification and compared against the handlers. -/

/-- Tag condition as the specification words it: the post has a stored tag
row equal to the literal tag value. -/
def postHasTag (s : ForumState) (t : String) (p : PostRow) : Bool :=
  s.postTags.any (fun r => r.tag == t && r.postId == p.id)

/-- Tag condition as the specification words it, for cases. -/
def caseHasTag (s : CaseState) (t : String) (c : CaseRow) : Bool :=
  s.caseTags.any (fun r => r.tag == t && r.caseId == c.id)

/-- Visibility predicate as the specification words it: an anonymous caller
sees only public cases; an authenticated caller sees the union of public
cases, cases they created, and cases with a collaborator row for them. -/
def caseVisibleSpec (s : CaseState) (userId : Option Nat) (c : CaseRow) : Bool :=
  match userId with
  | some uid =>
    c.isPublic || c.creatorId == uid ||
      s.caseCollaborators.any (fun r => r.userId == uid && r.caseId == c.id)
  | none => c.isPublic

/-- Tag filter of a posts query, as the specification words it. -/
def postTagFilterSpec (s : ForumState) (q : ForumPostsQueryInput) (p : PostRow) : Bool :=
  match tagActive q.tag with
  | some t => postHasTag s t p
  | none => true

/-- Tag filter of a cases query, as the specification words it. -/
def caseTagFilterSpec (s : CaseState) (q : CasesQueryInput) (c : CaseRow) : Bool :=
  match tagActive q.tag with
  | some t => caseHasTag s t c
  | none => true

/-- Membership in the projected id list of a filtered join table agrees with
an existential scan of the join table. -/
theorem contains_map_filter {α : Type} (f : α → Bool) (g : α → Nat) (x : Nat)
    (l : List α) :
    ((l.filter f).map g).contains x = l.any (fun r => f r && g r == x) := by
  rw [Bool.eq_iff_iff, List.any_eq_true]
  constructor
  · intro h
    have h2 : x ∈ (l.filter f).map g := List.elem_iff.mp h
    rw [List.mem_map] at h2
    obtain ⟨r, hr, hg⟩ := h2
    rw [List.mem_filter] at hr
    refine ⟨r, hr.1, ?_⟩
    rw [Bool.and_eq_true, beq_iff_eq]
    exact ⟨hr.2, hg⟩
  · rintro ⟨r, hr, hfr⟩
    rw [Bool.and_eq_true, beq_iff_eq] at hfr
    have h2 : x ∈ (l.filter f).map g := by
      rw [List.mem_map]
      exact ⟨r, List.mem_filter.mpr ⟨hr, hfr.1⟩, hfr.2⟩
    exact List.elem_iff.mpr h2

/-- Refinement of getForumPosts: its two-step tag filtering (select tagged
ids, short-circuit when none, then test id membership) equals filtering the
posts table by the existential tag condition of the specification. -/
theorem getForumPosts_eq_spec (s : ForumState) (q : ForumPostsQueryInput) :
    getForumPosts s q = paginateRows
      ((orDefaultNat q.page 1 - 1) * orDefaultNat q.limit 10)
      (orDefaultNat q.limit 10)
      (sortLe (postSortLe q.sortBy)
        (s.posts.filter (fun p => postTagFilterSpec s q p && postFieldFilters q p))) := by
  simp only [getForumPosts]
  cases ht : tagActive q.tag with
  | none =>
    refine congrArg (paginateRows _ _) (congrArg (sortLe _) ?_)
    apply List.filter_congr
    intro p _
    simp [postTagFilterSpec, ht]
  | some t =>
    dsimp only
    by_cases hz : (s.postTags.filter (fun r => r.tag == t)).length = 0
    · rw [if_pos hz]
      have hnil : s.posts.filter
          (fun p => postTagFilterSpec s q p && postFieldFilters q p) = [] := by
        rw [List.filter_eq_nil_iff]
        intro p _
        have hft : postHasTag s t p = false := by
          rw [← Bool.not_eq_true, postHasTag, List.any_eq_true]
          rintro ⟨r, hr, hrt⟩
          rw [Bool.and_eq_true, beq_iff_eq, beq_iff_eq] at hrt
          have hno := (length_filter_zero_iff _ _).mp hz r hr
          simp [hrt.1] at hno
        simp [postTagFilterSpec, ht, hft]
      rw [hnil]
      simp [sortLe, paginateRows]
    · rw [if_neg hz]
      refine congrArg (paginateRows _ _) (congrArg (sortLe _) ?_)
      apply List.filter_congr
      intro p _
      rw [contains_map_filter]
      simp [postTagFilterSpec, ht, postHasTag]

/-- The pushed visibility condition of getCases, including its special case
for an empty collaborated-id list, agrees with the specification predicate. -/
theorem getCasesVisCond_eq (s : CaseState) (u : Option Nat) (c : CaseRow) :
    getCasesVisCond u
      (match idActive u with
        | some uid => (s.caseCollaborators.filter (fun r => r.userId == uid)).map
            (fun r => r.caseId)
        | none => []) c = caseVisibleSpec s (idActive u) c := by
  cases hu : idActive u with
  | none => simp [getCasesVisCond, caseVisibleSpec, hu]
  | some uid =>
    simp only [getCasesVisCond, caseVisibleSpec, hu]
    by_cases hlen : ((s.caseCollaborators.filter (fun r => r.userId == uid)).map
        (fun r => r.caseId)).length > 0
    · rw [if_pos hlen, contains_map_filter]
    · rw [if_neg hlen]
      have hany : s.caseCollaborators.any
          (fun r => r.userId == uid && r.caseId == c.id) = false := by
        rw [← Bool.not_eq_true, List.any_eq_true]
        rintro ⟨r, hr, hrt⟩
        rw [Bool.and_eq_true] at hrt
        have h0 : (s.caseCollaborators.filter (fun r => r.userId == uid)).length = 0 := by
          have := Nat.eq_zero_of_not_pos hlen
          rwa [List.length_map] at this
        have := (length_filter_zero_iff _ _).mp h0 r hr
        exact this hrt.1
      rw [hany, Bool.or_false]

/-- Refinement of getCases: the pushed conditions equal the specification
predicate (visibility, field filters, existential tag condition) applied as
one filter, followed by the shared ordering and pagination. -/
theorem getCases_eq_spec (s : CaseState) (q : CasesQueryInput) (u : Option Nat) :
    getCases s q u = paginateRows
      ((orDefaultNat q.page 1 - 1) * orDefaultNat q.limit 10)
      (orDefaultNat q.limit 10)
      (sortLe (caseSortLe q.sortBy)
        (s.cases.filter (fun c => caseVisibleSpec s (idActive u) c &&
          caseFieldFilters q c && caseTagFilterSpec s q c))) := by
  simp only [getCases]
  cases ht : tagActive q.tag with
  | none =>
    dsimp only
    rw [if_neg (by simp)]
    refine congrArg (paginateRows _ _) (congrArg (sortLe _) ?_)
    apply List.filter_congr
    intro c _
    rw [getCasesVisCond_eq s u c]
    simp [caseTagFilterSpec, ht]
  | some t =>
    dsimp only
    by_cases hz : ((s.caseTags.filter (fun r => r.tag == t)).map
        (fun r => r.caseId)).length = 0
    · rw [if_pos (by simp [hz])]
      have hnil : s.cases.filter (fun c => caseVisibleSpec s (idActive u) c &&
          caseFieldFilters q c && caseTagFilterSpec s q c) = [] := by
        rw [List.filter_eq_nil_iff]
        intro c _
        have h0 : (s.caseTags.filter (fun r => r.tag == t)).length = 0 := by
          rwa [List.length_map] at hz
        have hft : caseHasTag s t c = false := by
          rw [← Bool.not_eq_true, caseHasTag, List.any_eq_true]
          rintro ⟨r, hr, hrt⟩
          rw [Bool.and_eq_true, beq_iff_eq, beq_iff_eq] at hrt
          have hno := (length_filter_zero_iff _ _).mp h0 r hr
          simp [hrt.1] at hno
        simp [caseTagFilterSpec, ht, hft]
      rw [hnil]
      simp [sortLe, paginateRows]
    · have hex : ∃ x ∈ s.caseTags, x.tag = t := by
        have hz2 : s.caseTags.filter (fun r => r.tag == t) ≠ [] := by
          intro hc
          exact hz (by rw [hc]; rfl)
        obtain ⟨x, hx⟩ := List.exists_mem_of_ne_nil _ hz2
        rw [List.mem_filter] at hx
        exact ⟨x, hx.1, by simpa using hx.2⟩
      rw [if_neg (by simp; exact hex)]
      refine congrArg (paginateRows _ _) (congrArg (sortLe _) ?_)
      apply List.filter_congr
      intro c _
      rw [getCasesVisCond_eq s u c]
      rw [if_pos (Nat.pos_of_ne_zero hz)]
      rw [contains_map_filter]
      simp [caseTagFilterSpec, ht, caseHasTag]

/-- LIMIT and OFFSET return a sublist of the ordered rows. -/
theorem paginateRows_sublist (off lim : Nat) (l : List α) :
    List.Sublist (paginateRows off lim l) l :=
  ((l.drop off).take_sublist lim).trans (l.drop_sublist off)

/-! Claim C4: getCases visibility. -/

/-- Claim C4: with no caller identity getCases returns only public cases, and
with an authenticated caller it returns exactly the page window over the
ordered cases satisfying the union visibility predicate (public, or created by
the caller, or holding a collaborator row for the caller) ANDed with the query
filters; distinct stored ids give a result without duplicates. -/
theorem getCases_visibility (s : CaseState) (q : CasesQueryInput) (uid : Nat)
    (huid : uid ≠ 0) (hids : (s.cases.map (fun c => c.id)).Nodup) :
    (∀ c ∈ getCases s q none, c.isPublic = true) ∧
    getCases s q (some uid) = paginateRows
      ((orDefaultNat q.page 1 - 1) * orDefaultNat q.limit 10)
      (orDefaultNat q.limit 10)
      (sortLe (caseSortLe q.sortBy)
        (s.cases.filter (fun c => caseVisibleSpec s (some uid) c &&
          caseFieldFilters q c && caseTagFilterSpec s q c))) ∧
    (getCases s q (some uid)).Nodup := by
  have hact : idActive (some uid) = some uid := by
    simp [idActive, huid]
  refine ⟨?_, ?_, ?_⟩
  · intro c hc
    rw [getCases_eq_spec] at hc
    have h1 : c ∈ sortLe (caseSortLe q.sortBy)
        (s.cases.filter (fun c => caseVisibleSpec s (idActive none) c &&
          caseFieldFilters q c && caseTagFilterSpec s q c)) :=
      (paginateRows_sublist _ _ _).subset hc
    have h2 := ((sortLe_perm _ _).mem_iff).mp h1
    rw [List.mem_filter] at h2
    have h3 := h2.2
    rw [Bool.and_eq_true, Bool.and_eq_true] at h3
    exact h3.1.1
  · rw [getCases_eq_spec]
    refine congrArg (paginateRows _ _) (congrArg (sortLe _) ?_)
    apply List.filter_congr
    intro c _
    rw [hact]
  · rw [getCases_eq_spec]
    have h0 : s.cases.Nodup := hids.of_map
    have h1 : (s.cases.filter (fun c => caseVisibleSpec s (idActive (some uid)) c &&
        caseFieldFilters q c && caseTagFilterSpec s q c)).Nodup := h0.filter _
    have h2 := ((sortLe_perm (caseSortLe q.sortBy) _).nodup_iff).mpr h1
    exact h2.sublist (paginateRows_sublist _ _ _)

/-- Base case row reused by the concrete case-query scenarios. -/
def caseDemoPublic : CaseRow :=
  { id := 1, title := "a", description := "d", caseType := CaseType.crown,
    priority := CasePriority.low, patientAge := none, isPublic := true,
    creatorId := 2, createdAt := 0, updatedAt := 0, status := CaseStatus.draft }

/-- Case store where caller 1 owns a private case, collaborates on another
private case of user 2, and cannot see a fourth private case. -/
def caseDemoState : CaseState :=
  { cases := [caseDemoPublic,
      { caseDemoPublic with id := 2, isPublic := false, creatorId := 1 },
      { caseDemoPublic with id := 3, isPublic := false },
      { caseDemoPublic with id := 4, isPublic := false }],
    caseTags := [],
    caseCollaborators := [{ caseId := 3, userId := 1, role := CollaboratorRole.viewer }] }

/-- Cases query with every filter absent. -/
def caseDemoQuery : CasesQueryInput :=
  { page := none, limit := none, caseType := none, priority := none,
    status := none, isPublic := none, creatorId := none, tag := none,
    sortBy := none }

theorem getCases_visibility_witness :
    (∀ c ∈ getCases caseDemoState caseDemoQuery none, c.isPublic = true) ∧
    getCases caseDemoState caseDemoQuery (some 1) = paginateRows
      ((orDefaultNat caseDemoQuery.page 1 - 1) * orDefaultNat caseDemoQuery.limit 10)
      (orDefaultNat caseDemoQuery.limit 10)
      (sortLe (caseSortLe caseDemoQuery.sortBy)
        (caseDemoState.cases.filter (fun c =>
          caseVisibleSpec caseDemoState (some 1) c &&
          caseFieldFilters caseDemoQuery c &&
          caseTagFilterSpec caseDemoState caseDemoQuery c))) ∧
    (getCases caseDemoState caseDemoQuery (some 1)).Nodup :=
  getCases_visibility caseDemoState caseDemoQuery 1 (by decide) (by decide)

/-! Claim C9: literal tag filtering. -/

/-- Posts query filtering by the empty-string tag, which the handler treats
as no filter at all because the empty string is falsy. -/
def emptyTagQuery : ForumPostsQueryInput :=
  { page := none, limit := none, categoryId := none, tag := some "",
    authorId := none, sortBy := none }

/-- Counterexample to claim C9 as stated for every tag string: with the
empty-string tag, no stored tag row equals the tag, yet the result is not
empty, because the falsy tag filter is dropped and all posts are returned. -/
theorem tag_filter_empty_string_ce :
    (∀ r ∈ invDemoState.postTags, r.tag ≠ "") ∧
    getForumPosts invDemoState emptyTagQuery ≠ [] := by
  decide

/-- Claim C9 as amended to nonempty tag strings: under a nonempty literal tag
filter both getForumPosts and getCases equal the page window over the ordered
entities carrying a stored tag row equal to the literal tag (ANDed with the
other filters and, for cases, the visibility predicate); every returned entity
carries such a row, and a tag carried by no row yields the empty list. -/
theorem tag_filter_literal (sF : ForumState) (sC : CaseState)
    (q : ForumPostsQueryInput) (q2 : CasesQueryInput) (u : Option Nat)
    (t : String) (ht : t ≠ "") (hqt : q.tag = some t) (hq2t : q2.tag = some t) :
    getForumPosts sF q = paginateRows
      ((orDefaultNat q.page 1 - 1) * orDefaultNat q.limit 10)
      (orDefaultNat q.limit 10)
      (sortLe (postSortLe q.sortBy)
        (sF.posts.filter (fun p => postHasTag sF t p && postFieldFilters q p))) ∧
    (∀ p ∈ getForumPosts sF q, ∃ r ∈ sF.postTags, r.tag = t ∧ r.postId = p.id) ∧
    ((∀ r ∈ sF.postTags, r.tag ≠ t) → getForumPosts sF q = []) ∧
    getCases sC q2 u = paginateRows
      ((orDefaultNat q2.page 1 - 1) * orDefaultNat q2.limit 10)
      (orDefaultNat q2.limit 10)
      (sortLe (caseSortLe q2.sortBy)
        (sC.cases.filter (fun c => caseVisibleSpec sC (idActive u) c &&
          caseFieldFilters q2 c && caseHasTag sC t c))) ∧
    (∀ c ∈ getCases sC q2 u, ∃ r ∈ sC.caseTags, r.tag = t ∧ r.caseId = c.id) ∧
    ((∀ r ∈ sC.caseTags, r.tag ≠ t) → getCases sC q2 u = []) := by
  have hta : tagActive q.tag = some t := by
    rw [hqt]
    simp [tagActive, ht]
  have hta2 : tagActive q2.tag = some t := by
    rw [hq2t]
    simp [tagActive, ht]
  have eqF : getForumPosts sF q = paginateRows
      ((orDefaultNat q.page 1 - 1) * orDefaultNat q.limit 10)
      (orDefaultNat q.limit 10)
      (sortLe (postSortLe q.sortBy)
        (sF.posts.filter (fun p => postHasTag sF t p && postFieldFilters q p))) := by
    rw [getForumPosts_eq_spec]
    refine congrArg (paginateRows _ _) (congrArg (sortLe _) ?_)
    apply List.filter_congr
    intro p _
    simp [postTagFilterSpec, hta]
  have eqC : getCases sC q2 u = paginateRows
      ((orDefaultNat q2.page 1 - 1) * orDefaultNat q2.limit 10)
      (orDefaultNat q2.limit 10)
      (sortLe (caseSortLe q2.sortBy)
        (sC.cases.filter (fun c => caseVisibleSpec sC (idActive u) c &&
          caseFieldFilters q2 c && caseHasTag sC t c))) := by
    rw [getCases_eq_spec]
    refine congrArg (paginateRows _ _) (congrArg (sortLe _) ?_)
    apply List.filter_congr
    intro c _
    simp [caseTagFilterSpec, hta2]
  refine ⟨eqF, ?_, ?_, eqC, ?_, ?_⟩
  · intro p hp
    rw [eqF] at hp
    have h1 := (paginateRows_sublist _ _ _).subset hp
    have h2 := ((sortLe_perm _ _).mem_iff).mp h1
    rw [List.mem_filter] at h2
    have h3 := h2.2
    rw [Bool.and_eq_true] at h3
    have h4 := h3.1
    rw [postHasTag, List.any_eq_true] at h4
    obtain ⟨r, hr, hrt⟩ := h4
    rw [Bool.and_eq_true, beq_iff_eq, beq_iff_eq] at hrt
    exact ⟨r, hr, hrt⟩
  · intro hno
    rw [eqF]
    have hnil : sF.posts.filter
        (fun p => postHasTag sF t p && postFieldFilters q p) = [] := by
      rw [List.filter_eq_nil_iff]
      intro p _
      have hft : postHasTag sF t p = false := by
        rw [← Bool.not_eq_true, postHasTag, List.any_eq_true]
        rintro ⟨r, hr, hrt⟩
        rw [Bool.and_eq_true, beq_iff_eq] at hrt
        exact hno r hr hrt.1
      simp [hft]
    rw [hnil]
    simp [sortLe, paginateRows]
  · intro c hc
    rw [eqC] at hc
    have h1 := (paginateRows_sublist _ _ _).subset hc
    have h2 := ((sortLe_perm _ _).mem_iff).mp h1
    rw [List.mem_filter] at h2
    have h3 := h2.2
    rw [Bool.and_eq_true] at h3
    have h4 := h3.2
    rw [caseHasTag, List.any_eq_true] at h4
    obtain ⟨r, hr, hrt⟩ := h4
    rw [Bool.and_eq_true, beq_iff_eq, beq_iff_eq] at hrt
    exact ⟨r, hr, hrt⟩
  · intro hno
    rw [eqC]
    have hnil : sC.cases.filter (fun c => caseVisibleSpec sC (idActive u) c &&
        caseFieldFilters q2 c && caseHasTag sC t c) = [] := by
      rw [List.filter_eq_nil_iff]
      intro c _
      have hft : caseHasTag sC t c = false := by
        rw [← Bool.not_eq_true, caseHasTag, List.any_eq_true]
        rintro ⟨r, hr, hrt⟩
        rw [Bool.and_eq_true, beq_iff_eq] at hrt
        exact hno r hr hrt.1
      simp [hft]
    rw [hnil]
    simp [sortLe, paginateRows]

/-- Forum store with one tagged and one untagged post, for the tag filter
scenario. -/
def tagDemoForumState : ForumState :=
  { categories := [{ id := 1, name := "g", description := none }],
    posts := [voteDemoPost, { voteDemoPost with id := 2 }],
    postTags := [{ postId := 1, tag := "x" }],
    comments := [], votes := [], bookmarks := [],
    nextPostId := 3, nextCommentId := 1 }

/-- Posts query filtering by the literal tag x. -/
def tagDemoQuery : ForumPostsQueryInput :=
  { page := none, limit := none, categoryId := none, tag := some "x",
    authorId := none, sortBy := none }

/-- Case store with one tagged public case, for the tag filter scenario. -/
def tagDemoCaseState : CaseState :=
  { cases := [caseDemoPublic],
    caseTags := [{ caseId := 1, tag := "x" }],
    caseCollaborators := [] }

/-- Cases query filtering by the literal tag x. -/
def tagDemoCasesQuery : CasesQueryInput :=
  { page := none, limit := none, caseType := none, priority := none,
    status := none, isPublic := none, creatorId := none, tag := some "x",
    sortBy := none }

theorem tag_filter_literal_witness :
    getForumPosts tagDemoForumState tagDemoQuery = paginateRows
      ((orDefaultNat tagDemoQuery.page 1 - 1) * orDefaultNat tagDemoQuery.limit 10)
      (orDefaultNat tagDemoQuery.limit 10)
      (sortLe (postSortLe tagDemoQuery.sortBy)
        (tagDemoForumState.posts.filter (fun p =>
          postHasTag tagDemoForumState "x" p && postFieldFilters tagDemoQuery p))) ∧
    (∀ p ∈ getForumPosts tagDemoForumState tagDemoQuery,
      ∃ r ∈ tagDemoForumState.postTags, r.tag = "x" ∧ r.postId = p.id) ∧
    ((∀ r ∈ tagDemoForumState.postTags, r.tag ≠ "x") →
      getForumPosts tagDemoForumState tagDemoQuery = []) ∧
    getCases tagDemoCaseState tagDemoCasesQuery none = paginateRows
      ((orDefaultNat tagDemoCasesQuery.page 1 - 1) * orDefaultNat tagDemoCasesQuery.limit 10)
      (orDefaultNat tagDemoCasesQuery.limit 10)
      (sortLe (caseSortLe tagDemoCasesQuery.sortBy)
        (tagDemoCaseState.cases.filter (fun c =>
          caseVisibleSpec tagDemoCaseState (idActive none) c &&
          caseFieldFilters tagDemoCasesQuery c && caseHasTag tagDemoCaseState "x" c))) ∧
    (∀ c ∈ getCases tagDemoCaseState tagDemoCasesQuery none,
      ∃ r ∈ tagDemoCaseState.caseTags, r.tag = "x" ∧ r.caseId = c.id) ∧
    ((∀ r ∈ tagDemoCaseState.caseTags, r.tag ≠ "x") →
      getCases tagDemoCaseState tagDemoCasesQuery none = []) :=
  tag_filter_literal tagDemoForumState tagDemoCaseState tagDemoQuery
    tagDemoCasesQuery none "x" (by decide) rfl rfl

end DentalLab
